import Mathlib

/-!
Verification of the aloha-a2a dice agent (Python, `server/` package).

The development shallowly embeds the code that the specification talks
about:

* `server/tools.py` : `roll_dice`, `check_prime`, `is_prime`;
* `server/agent_executor.py` : `validate_tool_parameters`, the bounded
  tool-calling conversation loop `_call_llm_with_tools` (here
  `call_llm_with_tools` / `loopAux` / `execCalls`), and the fallback
  responder `_fallback_processing` (here `fallback_processing`).

Python's randomness (`random.randint`) is passed in explicitly as an
oracle function; fallible Python code (raising `ValueError` /
`ConnectionError`) is embedded with `Except String`; Python's JSON-like
argument values are the inductive type `PyVal`.
-/

/-! ### Integer square root

Python computes `int(n ** 0.5)`.  For every `n` below `2 ^ 52` (far above
everything the spec talks about: primality inputs are bounded by the
claims at 10000 and by the validator at list length 1000) the double
precision value `n ** 0.5` truncates to the exact integer square root, so
the embedding uses an exact integer square root.  `Nat.sqrt` of this
toolchain does not reduce in the kernel, hence a small structural
implementation, proved equal to `Nat.sqrt` below. -/

def isqrtAux (n : Nat) : Nat → Nat
  | 0 => 0
  | k+1 => if (k+1)*(k+1) ≤ n then k+1 else isqrtAux n k

def int_sqrt (n : Nat) : Nat := isqrtAux n n

theorem isqrtAux_spec (n : Nat) : ∀ k, isqrtAux n k * isqrtAux n k ≤ n := by
  intro k
  induction k with
  | zero => simp [isqrtAux]
  | succ k ih =>
    simp only [isqrtAux]
    split
    · assumption
    · exact ih

theorem isqrtAux_greatest (n : Nat) :
    ∀ k j, isqrtAux n k < j → j ≤ k → ¬ (j * j ≤ n) := by
  intro k
  induction k with
  | zero => intro j h1 h2; omega
  | succ k ih =>
    intro j h1 h2
    simp only [isqrtAux] at h1
    split at h1
    · omega
    · rcases Nat.lt_or_ge j (k+1) with h | h
      · exact ih j h1 (by omega)
      · have hj : j = k + 1 := by omega
        subst hj
        assumption

theorem int_sqrt_eq_sqrt (n : Nat) : int_sqrt n = Nat.sqrt n := by
  apply Nat.le_antisymm
  · exact Nat.le_sqrt.mpr (isqrtAux_spec n n)
  · by_contra h
    push_neg at h
    exact isqrtAux_greatest n n (Nat.sqrt n) h (Nat.sqrt_le_self n) (Nat.sqrt_le n)

/-! ### `server/tools.py` -/

/-- `tools.is_prime(n)`: trial division by the odd numbers
`range(3, int(n ** 0.5) + 1, 2)` after the small-case tests.
Python's `range(3, s + 1, 2)` is `List.range' 3 ((s - 1) / 2) 2`. -/
def is_prime (n : Int) : Bool :=
  if n ≤ 1 then false
  else if n = 2 then true
  else if n % 2 == 0 then false
  else
    let m := n.toNat
    let sqrt_n := int_sqrt m
    (List.range' 3 ((sqrt_n - 1) / 2) 2).all (fun i => m % i != 0)

/-- `tools.check_prime(numbers)`: the sentence naming the prime inputs. -/
def check_prime (numbers : List Int) : String :=
  if numbers.isEmpty then
    "No numbers provided to check."
  else
    let primes := numbers.filter (fun n => is_prime n)
    if primes.isEmpty then
      "None of the numbers are prime."
    else
      String.intercalate ", " (primes.map (fun p => toString p)) ++ " are prime numbers."

/-- `tools.roll_dice(sides)`.  `randint` is the oracle standing for
`random.randint`; the raised `ValueError` is the `Except.error` case. -/
def roll_dice (randint : Int → Int → Int) (sides : Int) : Except String Int :=
  if sides ≤ 0 then Except.error "Dice must have at least 1 side"
  else Except.ok (randint 1 sides)

/-! ### Characterization of `is_prime` against `Nat.Prime` -/

theorem is_prime_natCast (m : Nat) : is_prime (m : Int) = true ↔ Nat.Prime m := by
  rcases Nat.lt_or_ge m 2 with hm | hm
  · -- m = 0 or 1
    interval_cases m <;> simp [is_prime, Nat.not_prime_zero, Nat.not_prime_one]
  rcases Nat.eq_or_lt_of_le hm with hm2 | hm3
  · subst hm2; simp [is_prime, Nat.prime_two]
  · -- m ≥ 3
    have h1 : ¬ ((m : Int) ≤ 1) := by exact_mod_cast (by omega : ¬ (m ≤ 1))
    have h2 : ¬ ((m : Int) = 2) := by exact_mod_cast (by omega : ¬ (m = 2))
    rcases Nat.even_or_odd m with he | ho
    · -- even m ≥ 4: is_prime is false, and m is not prime
      have hmod : m % 2 = 0 := Nat.even_iff.mp he
      have hmodi : ((m : Int) % 2 == 0) = true := by
        have : (m : Int) % 2 = ((m % 2 : Nat) : Int) := by push_cast; ring_nf
        simp [this, hmod]
      simp only [is_prime, if_neg h1, if_neg h2, hmodi, if_pos]
      constructor
      · intro h; exact absurd h (by simp)
      · intro hp
        rcases hp.eq_one_or_self_of_dvd 2 (Nat.dvd_of_mod_eq_zero hmod) with h | h <;> omega
    · -- odd m ≥ 3: the trial-division branch
      have hmod : m % 2 = 1 := Nat.odd_iff.mp ho
      have hmodi : ((m : Int) % 2 == 0) = false := by
        have : (m : Int) % 2 = ((m % 2 : Nat) : Int) := by push_cast; ring_nf
        simp [this, hmod]
      simp only [is_prime, if_neg h1, if_neg h2, hmodi, Bool.false_eq_true,
        if_neg (by simp : ¬ False), Int.toNat_natCast, int_sqrt_eq_sqrt]
      rw [List.all_eq_true]
      constructor
      · intro hall
        rw [Nat.prime_def_le_sqrt]
        refine ⟨by omega, ?_⟩
        intro d hd2 hdsqrt hdvd
        rcases Nat.even_or_odd d with hde | hdo
        · have h2m : 2 ∣ m := dvd_trans (Nat.dvd_of_mod_eq_zero (Nat.even_iff.mp hde)) hdvd
          have := Nat.dvd_iff_mod_eq_zero.mp h2m
          omega
        · have hd1 : d % 2 = 1 := Nat.odd_iff.mp hdo
          have hd3 : 3 ≤ d := by omega
          have hmem : d ∈ List.range' 3 ((Nat.sqrt m - 1) / 2) 2 := by
            rw [List.mem_range']
            exact ⟨(d - 3) / 2, by omega, by omega⟩
          have := hall d hmem
          rw [bne_iff_ne] at this
          exact this (Nat.dvd_iff_mod_eq_zero.mp hdvd)
      · intro hp i hi
        rw [List.mem_range'] at hi
        obtain ⟨j, hj, rfl⟩ := hi
        rw [bne_iff_ne]
        intro hmod0
        have hle : 3 + 2 * j ≤ Nat.sqrt m := by omega
        exact (Nat.prime_def_le_sqrt.mp hp).2 (3 + 2 * j) (by omega) hle
          (Nat.dvd_of_mod_eq_zero hmod0)

/-! ### Python argument values and `validate_tool_parameters`

`PyVal` embeds the JSON-like values a decoded tool-call argument can
hold; keyword arguments are association lists looked up with `getKw`
(`kwargs.get`). -/

inductive PyVal where
  | int (n : Int)
  | str (s : String)
  | list (l : List PyVal)
  | none

/-- Python's `type(v).__name__`, used inside the validator's messages. -/
def PyVal.typeName : PyVal → String
  | .int _ => "int"
  | .str _ => "str"
  | .list _ => "list"
  | .none => "NoneType"

def getKw (kwargs : List (String × PyVal)) (key : String) : Option PyVal :=
  match kwargs.find? (fun p => p.1 == key) with
  | Option.some p => Option.some p.2
  | Option.none => Option.none

/-- The element loop of `validate_tool_parameters` for `check_prime`:
each entry must be an `int` and non-negative, first offender reported. -/
def checkNumbers : List PyVal → Except String Unit
  | [] => Except.ok ()
  | v :: rest =>
    match v with
    | PyVal.int num =>
      if num < 0 then
        Except.error ("All numbers must be non-negative, got " ++ toString num)
      else checkNumbers rest
    | _ => Except.error ("All numbers must be integers, got " ++ v.typeName)

/-- `agent_executor.validate_tool_parameters`.  A raised `ValueError`
is the `Except.error` case; an unknown tool name passes (the Python
function falls through and returns `None`). -/
def validate_tool_parameters (tool_name : String) (kwargs : List (String × PyVal)) :
    Except String Unit :=
  if tool_name = "roll_dice" then
    match getKw kwargs "sides" with
    | Option.none => Except.error "roll_dice requires 'sides' parameter"
    | Option.some PyVal.none => Except.error "roll_dice requires 'sides' parameter"
    | Option.some (PyVal.int sides) =>
      if sides ≤ 0 then
        Except.error ("'sides' must be positive, got " ++ toString sides)
      else if sides > 1000000 then
        Except.error ("'sides' must be <= 1000000, got " ++ toString sides)
      else Except.ok ()
    | Option.some v => Except.error ("'sides' must be an integer, got " ++ v.typeName)
  else if tool_name = "check_prime" then
    match getKw kwargs "numbers" with
    | Option.none => Except.error "check_prime requires 'numbers' parameter"
    | Option.some PyVal.none => Except.error "check_prime requires 'numbers' parameter"
    | Option.some (PyVal.list numbers) =>
      if numbers.length = 0 then
        Except.error "'numbers' list cannot be empty"
      else if numbers.length > 1000 then
        Except.error ("'numbers' list too large (max 1000), got " ++ toString numbers.length)
      else checkNumbers numbers
    | Option.some v => Except.error ("'numbers' must be a list, got " ++ v.typeName)
  else Except.ok ()

/-! ### The conversation loop `_call_llm_with_tools`

A backend is a function from the current conversation to the next
response message (the `message` field of the Ollama chat reply);
arguments are modelled after JSON decoding.  A raised exception is the
`Except.error` case. -/

inductive Role where
  | system
  | user
  | assistant
  | tool
  deriving DecidableEq

structure ToolCall where
  name : String
  arguments : List (String × PyVal)

structure ChatMessage where
  role : Role
  content : String
  tool_calls : List ToolCall

/-- The `{"role": "tool", "content": …}` record the loop appends. -/
def toolMessage (content : String) : ChatMessage := ⟨Role.tool, content, []⟩

/-- The `EXECUTING_TOOLS` phase: process one assistant turn's tool calls
in order.  Returns the tool-role messages appended before control left
the phase, and the raised error if one call aborted it: a registered
name is validated and then executed, an unregistered name produces the
`Unknown tool` observation and processing continues. -/
def execCalls (tools : String → Option (List (String × PyVal) → Except String String)) :
    List ToolCall → List ChatMessage × Option String
  | [] => ([], Option.none)
  | c :: rest =>
    match tools c.name with
    | Option.some f =>
      match validate_tool_parameters c.name c.arguments with
      | Except.error e => ([], Option.some e)
      | Except.ok _ =>
        match f c.arguments with
        | Except.error e => ([], Option.some e)
        | Except.ok r =>
          (toolMessage r :: (execCalls tools rest).1, (execCalls tools rest).2)
    | Option.none =>
      (toolMessage ("Error: Unknown tool '" ++ c.name ++ "'") :: (execCalls tools rest).1,
        (execCalls tools rest).2)

/-- The observation one tool call produces when it completes without
aborting the loop (used to state the conversation-ordering invariant). -/
def callResponse (tools : String → Option (List (String × PyVal) → Except String String))
    (c : ToolCall) : Option ChatMessage :=
  match tools c.name with
  | Option.some f =>
    match validate_tool_parameters c.name c.arguments with
    | Except.error _ => Option.none
    | Except.ok _ =>
      match f c.arguments with
      | Except.error _ => Option.none
      | Except.ok r => Option.some (toolMessage r)
  | Option.none => Option.some (toolMessage ("Error: Unknown tool '" ++ c.name ++ "'"))

/-- The `while iteration < max_iterations` loop of `_call_llm_with_tools`,
with `fuel = max_iterations - iteration`.  Returns the final text
together with the conversation as the loop left it. -/
def loopAux (backend : List ChatMessage → ChatMessage)
    (tools : String → Option (List (String × PyVal) → Except String String)) :
    Nat → List ChatMessage → Except String (String × List ChatMessage)
  | 0, messages =>
    Except.ok ("Maximum iterations reached while processing request.", messages)
  | fuel+1, messages =>
    let message := backend messages
    if message.tool_calls.isEmpty then
      Except.ok
        ((if message.content = "" then "I processed your request." else message.content),
          messages)
    else
      let r := execCalls tools message.tool_calls
      match r.2 with
      | Option.some e => Except.error e
      | Option.none => loopAux backend tools fuel (messages ++ message :: r.1)

/-- `agent_executor.DiceAgentExecutor._call_llm_with_tools` (its returned
string; `max_iterations = 5`). -/
def call_llm_with_tools (backend : List ChatMessage → ChatMessage)
    (tools : String → Option (List (String × PyVal) → Except String String))
    (messages : List ChatMessage) : Except String String :=
  Except.map Prod.fst (loopAux backend tools 5 messages)

/-! ### The registered tools (`self.tools`) -/

def toIntList : List PyVal → Option (List Int)
  | [] => Option.some []
  | PyVal.int n :: rest => (toIntList rest).map (fun l => n :: l)
  | _ => Option.none

/-- `roll_dice` as called with `**tool_args` and stringified with `str`.
The error branches model Python `TypeError`s on bad keyword application;
they are unreachable after validation. -/
def roll_dice_tool (randint : Int → Int → Int) (args : List (String × PyVal)) :
    Except String String :=
  match getKw args "sides" with
  | Option.some (PyVal.int n) => Except.map (fun r => toString r) (roll_dice randint n)
  | _ => Except.error "TypeError: roll_dice missing required argument: sides"

/-- `check_prime` as called with `**tool_args` (its result already is a
string).  The error branches model Python `TypeError`s, unreachable
after validation. -/
def check_prime_tool (args : List (String × PyVal)) : Except String String :=
  match getKw args "numbers" with
  | Option.some (PyVal.list l) =>
    match toIntList l with
    | Option.some ns => Except.ok (check_prime ns)
    | Option.none => Except.error "TypeError: is_prime comparison on non-integer"
  | _ => Except.error "TypeError: check_prime missing required argument: numbers"

/-- The registry `self.tools = {"roll_dice": roll_dice, "check_prime": check_prime}`. -/
def realTools (randint : Int → Int → Int) (name : String) :
    Option (List (String × PyVal) → Except String String) :=
  if name = "roll_dice" then Option.some (roll_dice_tool randint)
  else if name = "check_prime" then Option.some check_prime_tool
  else Option.none

/-! ### The fallback responder `_fallback_processing`

String scanning is done over `List Char`.  `lowerStr` models Python's
`.lower()` (ASCII range; every input the spec exercises is ASCII), and
the two regular expressions of the source are implemented directly:
`(\d+)[-\s]?sided` via `findSided` and `\b\d+\b` via `extractNumbers`,
both with ASCII character classes. -/

def lowerStr (s : String) : String := String.mk (s.data.map Char.toLower)

def listStartsWith : List Char → List Char → Bool
  | _, [] => true
  | [], _ :: _ => false
  | c :: cs, d :: ds => c == d && listStartsWith cs ds

/-- Python's `needle in hay` on strings. -/
def listContains (needle : List Char) : List Char → Bool
  | [] => needle.isEmpty
  | c :: rest => listStartsWith (c :: rest) needle || listContains needle rest

def strContains (hay needle : String) : Bool := listContains needle.data hay.data

/-- ASCII `\w`: the word characters deciding `\b`. -/
def isWordChar (c : Char) : Bool := c.isAlphanum || c == '_'

/-- ASCII `[-\s]`. -/
def sidedSep (c : Char) : Bool :=
  c == '-' || c == ' ' || c == '\t' || c == '\n' || c == '\r' || c == '\x0b' || c == '\x0c'

/-- Python `int` on a digit run. -/
def natOfDigits (l : List Char) : Nat :=
  l.foldl (fun a c => a * 10 + (c.toNat - '0'.toNat)) 0

/-- Does `[-\s]?sided` match right here? -/
def sidedAfter (tail : List Char) : Bool :=
  listStartsWith tail "sided".data ||
    (match tail with
     | c :: t => sidedSep c && listStartsWith t "sided".data
     | [] => false)

/-- `re.search(r'(\d+)[-\s]?sided', s)`, returning group 1 as a number.
`\d+` can only match a maximal digit run here (the next pattern
characters accept no digit), and a failed run fails for every start
inside it, so the scan jumps run by run.  The fuel is the remaining
string length; every step consumes at least one character, so it never
runs out before the text does. -/
def findSidedF : Nat → List Char → Option Nat
  | 0, _ => Option.none
  | _+1, [] => Option.none
  | fuel+1, c :: rest =>
    if c.isDigit then
      let run := c :: rest.takeWhile Char.isDigit
      let tail := rest.dropWhile Char.isDigit
      if sidedAfter tail then Option.some (natOfDigits run)
      else findSidedF fuel tail
    else findSidedF fuel rest

def findSided (l : List Char) : Option Nat := findSidedF l.length l

/-- `re.findall(r'\b\d+\b', s)` as numbers: the maximal digit runs whose
neighbours (when present) are non-word characters.  `prevWord` says
whether the character just before the current position is a word
character; fuel as in `findSidedF`. -/
def extractNumbersF : Nat → Bool → List Char → List Nat
  | 0, _, _ => []
  | _+1, _, [] => []
  | fuel+1, prevWord, c :: rest =>
    if c.isDigit && !prevWord then
      let run := c :: rest.takeWhile Char.isDigit
      let tail := rest.dropWhile Char.isDigit
      let boundary := match tail with
        | [] => true
        | d :: _ => !isWordChar d
      if boundary then natOfDigits run :: extractNumbersF fuel true tail
      else extractNumbersF fuel true tail
    else extractNumbersF fuel (isWordChar c) rest

def extractNumbers (l : List Char) : List Nat := extractNumbersF l.length false l

/-- `agent_executor.DiceAgentExecutor._fallback_processing`.  The
`Except.error` case is a `ValueError` escaping it (Python does not catch
around the `roll_dice` calls here). -/
def fallback_processing (randint : Int → Int → Int) (message_text : String) :
    Except String String :=
  let message_lower := lowerStr message_text
  if strContains message_lower "roll" && strContains message_lower "dice" then
    match findSided message_lower.data with
    | Option.some sides =>
      match roll_dice randint (sides : Int) with
      | Except.ok result =>
        Except.ok ("I rolled a " ++ toString sides ++ "-sided dice and got: " ++ toString result)
      | Except.error e => Except.error e
    | Option.none =>
      match roll_dice randint 6 with
      | Except.ok result =>
        Except.ok ("I rolled a 6-sided dice and got: " ++ toString result)
      | Except.error e => Except.error e
  else if strContains message_lower "prime" then
    let numbers := (extractNumbers message_text.data).map (fun k => (k : Int))
    if numbers.isEmpty then Except.ok "Please provide numbers to check for primality."
    else Except.ok (check_prime numbers)
  else
    Except.ok "I can roll dice and check if numbers are prime. What would you like me to do?"

/-! ### Claims about the tools -/

/-- C4: `is_prime` is false for every `n ≤ 1`, true for `n = 2`, false
for every even `n > 2`, and on `[0, 10000]` agrees with the reference
primality predicate `Nat.Prime`. -/
theorem is_prime_spec :
    (∀ n : Int, n ≤ 1 → is_prime n = false) ∧
    is_prime 2 = true ∧
    (∀ n : Int, 2 < n → n % 2 = 0 → is_prime n = false) ∧
    (∀ m : Nat, m ≤ 10000 → (is_prime (m : Int) = true ↔ Nat.Prime m)) := by
  refine ⟨?_, by rfl, ?_, ?_⟩
  · intro n h
    simp [is_prime, h]
  · intro n h1 h2
    have hne1 : ¬ (n ≤ 1) := by omega
    have hne2 : n ≠ 2 := by omega
    simp [is_prime, hne1, hne2, h2]
  · intro m _
    exact is_prime_natCast m

/-- C4 witness: the parts of `is_prime_spec` at concrete inputs. -/
theorem is_prime_spec_witness :
    is_prime (-5) = false ∧ is_prime 10 = false ∧
    (is_prime ((97 : Nat) : Int) = true ↔ Nat.Prime 97) :=
  ⟨is_prime_spec.1 (-5) (by decide), is_prime_spec.2.2.1 10 (by decide) (by decide),
    is_prime_spec.2.2.2 97 (by decide)⟩

/-- C3: on every non-empty input, `check_prime` joins the prime elements
(original order, duplicates kept) with ", " and appends
" are prime numbers.", or returns the fixed none-are-prime sentence when
no element is prime; in particular on the two spec examples. -/
theorem check_prime_sentence :
    (∀ l : List Int, l ≠ [] →
      check_prime l =
        if l.filter (fun n => is_prime n) = [] then "None of the numbers are prime."
        else
          String.intercalate ", " ((l.filter (fun n => is_prime n)).map (fun p => toString p))
            ++ " are prime numbers.") ∧
    check_prime [2, 3, 4, 5, 9, 11] = "2, 3, 5, 11 are prime numbers." ∧
    check_prime [4, 6, 8, 9] = "None of the numbers are prime." := by
  refine ⟨?_, by rfl, by rfl⟩
  intro l hl
  unfold check_prime
  rw [if_neg (by simpa [List.isEmpty_iff] using hl)]
  by_cases h : l.filter (fun n => is_prime n) = []
  · rw [if_pos (by simpa [List.isEmpty_iff] using h), if_pos h]
  · rw [if_neg (by simpa [List.isEmpty_iff] using h), if_neg h]

/-- C3 witness: the general sentence shape at a concrete non-empty list. -/
theorem check_prime_sentence_witness : check_prime [7, 8] = "7 are prime numbers." := by
  rw [check_prime_sentence.1 [7, 8] (by decide)]
  rfl

/-- C5: with any `randint` respecting `random.randint`'s inclusive-range
contract, `roll_dice sides` returns a value in `[1, sides]` for every
`sides ≥ 1`, and raises the `ValueError` for `sides = 0` and every
negative `sides`. -/
theorem roll_dice_spec (randint : Int → Int → Int)
    (hr : ∀ a b : Int, a ≤ b → a ≤ randint a b ∧ randint a b ≤ b) (sides : Int) :
    (1 ≤ sides → ∃ r, roll_dice randint sides = Except.ok r ∧ 1 ≤ r ∧ r ≤ sides) ∧
    (sides ≤ 0 →
      roll_dice randint sides = Except.error "Dice must have at least 1 side") := by
  constructor
  · intro h
    refine ⟨randint 1 sides, ?_, (hr 1 sides h).1, (hr 1 sides h).2⟩
    unfold roll_dice
    rw [if_neg (by omega)]
  · intro h
    unfold roll_dice
    rw [if_pos h]

/-- C5 witness: `roll_dice_spec` at `sides = 3` and `sides = 0` with a
concrete in-range oracle. -/
theorem roll_dice_spec_witness :
    (∃ r, roll_dice (fun a _ => a) 3 = Except.ok r ∧ 1 ≤ r ∧ r ≤ 3) ∧
    roll_dice (fun a _ => a) 0 = Except.error "Dice must have at least 1 side" := by
  have h3 := roll_dice_spec (fun a _ => a) (fun a b hab => ⟨le_refl a, hab⟩) 3
  have h0 := roll_dice_spec (fun a _ => a) (fun a b hab => ⟨le_refl a, hab⟩) 0
  exact ⟨h3.1 (by decide), h0.2 (by decide)⟩

/-- C10: `check_prime []` is total and returns the distinct
no-numbers-provided sentence, not the none-are-prime sentence. -/
theorem check_prime_empty :
    check_prime [] = "No numbers provided to check." ∧
    check_prime [] ≠ "None of the numbers are prime." :=
  ⟨by rfl, by decide⟩

/-! ### Claim about the validator -/

theorem checkNumbers_ok (l : List PyVal) :
    checkNumbers l = Except.ok () ↔ ∀ v ∈ l, ∃ m : Int, v = PyVal.int m ∧ 0 ≤ m := by
  induction l with
  | nil => simp [checkNumbers]
  | cons v rest ih =>
    rw [List.forall_mem_cons]
    cases v with
    | int num =>
      by_cases h : num < 0
      · simp only [checkNumbers, if_pos h]
        constructor
        · intro he; exact Except.noConfusion he
        · rintro ⟨⟨m, hm, hm0⟩, -⟩
          injection hm with h1
          omega
      · simp only [checkNumbers, if_neg h]
        rw [ih]
        constructor
        · intro hrest
          exact ⟨⟨num, rfl, by omega⟩, hrest⟩
        · rintro ⟨-, hrest⟩; exact hrest
    | str s =>
      simp only [checkNumbers]
      constructor
      · intro he; exact Except.noConfusion he
      · rintro ⟨⟨m, hm, -⟩, -⟩; exact PyVal.noConfusion hm
    | list l2 =>
      simp only [checkNumbers]
      constructor
      · intro he; exact Except.noConfusion he
      · rintro ⟨⟨m, hm, -⟩, -⟩; exact PyVal.noConfusion hm
    | none =>
      simp only [checkNumbers]
      constructor
      · intro he; exact Except.noConfusion he
      · rintro ⟨⟨m, hm, -⟩, -⟩; exact PyVal.noConfusion hm

theorem validate_roll_dice_ok (kwargs : List (String × PyVal)) :
    validate_tool_parameters "roll_dice" kwargs = Except.ok () ↔
      ∃ n : Int, getKw kwargs "sides" = Option.some (PyVal.int n) ∧ 0 < n ∧ n ≤ 1000000 := by
  unfold validate_tool_parameters
  rw [if_pos rfl]
  rcases hg : getKw kwargs "sides" with - | v
  · constructor
    · intro he; exact Except.noConfusion he
    · rintro ⟨n, hn, -⟩
      exact Option.noConfusion hn
  · cases v with
    | int n =>
      dsimp only
      constructor
      · intro hok
        by_cases h1 : n ≤ 0
        · rw [if_pos h1] at hok; exact Except.noConfusion hok
        · rw [if_neg h1] at hok
          by_cases h2 : n > 1000000
          · rw [if_pos h2] at hok; exact Except.noConfusion hok
          · exact ⟨n, rfl, by omega, by omega⟩
      · rintro ⟨n', hn', h0, hle⟩
        injection hn' with hv
        injection hv with hnn
        subst hnn
        rw [if_neg (by omega), if_neg (by omega)]
    | str s =>
      constructor
      · intro he; exact Except.noConfusion he
      · rintro ⟨n', hn', -⟩
        injection hn' with hv
        exact PyVal.noConfusion hv
    | list l2 =>
      constructor
      · intro he; exact Except.noConfusion he
      · rintro ⟨n', hn', -⟩
        injection hn' with hv
        exact PyVal.noConfusion hv
    | none =>
      constructor
      · intro he; exact Except.noConfusion he
      · rintro ⟨n', hn', -⟩
        injection hn' with hv
        exact PyVal.noConfusion hv

theorem validate_check_prime_ok (kwargs : List (String × PyVal)) :
    validate_tool_parameters "check_prime" kwargs = Except.ok () ↔
      ∃ l, getKw kwargs "numbers" = Option.some (PyVal.list l) ∧ l ≠ [] ∧
        l.length ≤ 1000 ∧ ∀ v ∈ l, ∃ m : Int, v = PyVal.int m ∧ 0 ≤ m := by
  unfold validate_tool_parameters
  rw [if_neg (by decide), if_pos rfl]
  rcases hg : getKw kwargs "numbers" with - | v
  · constructor
    · intro he; exact Except.noConfusion he
    · rintro ⟨l, hl, -⟩
      exact Option.noConfusion hl
  · cases v with
    | list l =>
      dsimp only
      constructor
      · intro hok
        by_cases h1 : l.length = 0
        · rw [if_pos h1] at hok; exact Except.noConfusion hok
        · rw [if_neg h1] at hok
          by_cases h2 : l.length > 1000
          · rw [if_pos h2] at hok; exact Except.noConfusion hok
          · rw [if_neg h2] at hok
            refine ⟨l, rfl, ?_, by omega, (checkNumbers_ok l).mp hok⟩
            intro hnil
            exact h1 (by rw [hnil]; rfl)
      · rintro ⟨l', hl', hne, hlen, hall⟩
        injection hl' with hv
        injection hv with hll
        subst hll
        rw [if_neg (by simpa using hne), if_neg (by omega)]
        exact (checkNumbers_ok l).mpr hall
    | int n =>
      constructor
      · intro he; exact Except.noConfusion he
      · rintro ⟨l', hl', -⟩
        injection hl' with hv
        exact PyVal.noConfusion hv
    | str s =>
      constructor
      · intro he; exact Except.noConfusion he
      · rintro ⟨l', hl', -⟩
        injection hl' with hv
        exact PyVal.noConfusion hv
    | none =>
      constructor
      · intro he; exact Except.noConfusion he
      · rintro ⟨l', hl', -⟩
        injection hl' with hv
        exact PyVal.noConfusion hv

set_option maxRecDepth 40000 in
/-- C6: `validate_tool_parameters` succeeds or fails exactly per the
spec's rules: `roll_dice` succeeds iff `sides` is present, an integer,
positive and at most 1,000,000; `check_prime` succeeds iff `numbers` is
present, a list, non-empty, at most 1000 long, and every element is a
non-negative integer; including the spec's concrete pass/fail cases. -/
theorem validate_tool_parameters_spec :
    (∀ kwargs, validate_tool_parameters "roll_dice" kwargs = Except.ok () ↔
      ∃ n : Int, getKw kwargs "sides" = Option.some (PyVal.int n) ∧ 0 < n ∧ n ≤ 1000000) ∧
    (∀ kwargs, validate_tool_parameters "check_prime" kwargs = Except.ok () ↔
      ∃ l, getKw kwargs "numbers" = Option.some (PyVal.list l) ∧ l ≠ [] ∧
        l.length ≤ 1000 ∧ ∀ v ∈ l, ∃ m : Int, v = PyVal.int m ∧ 0 ≤ m) ∧
    validate_tool_parameters "roll_dice" [("sides", PyVal.int 1000000)] = Except.ok () ∧
    validate_tool_parameters "roll_dice" [("sides", PyVal.int 1000001)] ≠ Except.ok () ∧
    validate_tool_parameters "roll_dice" [("sides", PyVal.int (-1))] ≠ Except.ok () ∧
    validate_tool_parameters "roll_dice" [("sides", PyVal.str "6")] ≠ Except.ok () ∧
    validate_tool_parameters "roll_dice" [] ≠ Except.ok () ∧
    validate_tool_parameters "check_prime"
      [("numbers", PyVal.list [PyVal.int 1, PyVal.int 2, PyVal.int 3])] = Except.ok () ∧
    validate_tool_parameters "check_prime" [("numbers", PyVal.list [])] ≠ Except.ok () ∧
    validate_tool_parameters "check_prime"
      [("numbers", PyVal.list [PyVal.int (-1)])] ≠ Except.ok () ∧
    validate_tool_parameters "check_prime"
      [("numbers", PyVal.list (List.replicate 1001 (PyVal.int 1)))] ≠ Except.ok () ∧
    validate_tool_parameters "check_prime" [("numbers", PyVal.str "123")] ≠ Except.ok () :=
  ⟨validate_roll_dice_ok, validate_check_prime_ok,
    by rfl, fun h => Except.noConfusion h, fun h => Except.noConfusion h,
    fun h => Except.noConfusion h, fun h => Except.noConfusion h,
    by rfl, fun h => Except.noConfusion h, fun h => Except.noConfusion h,
    fun h => Except.noConfusion h, fun h => Except.noConfusion h⟩

/-! ### Structure lemmas for the conversation loop -/

theorem execCalls_forall₂
    (tools : String → Option (List (String × PyVal) → Except String String))
    (calls : List ToolCall) :
    List.Forall₂ (fun c m => callResponse tools c = Option.some m ∧ m.role = Role.tool)
      (calls.take (execCalls tools calls).1.length) (execCalls tools calls).1 := by
  induction calls with
  | nil => exact List.Forall₂.nil
  | cons c rest ih =>
    cases htool : tools c.name with
    | some f =>
      cases hval : validate_tool_parameters c.name c.arguments with
      | error e =>
        simp only [execCalls, htool, hval, List.length_nil, List.take_zero]
        exact List.Forall₂.nil
      | ok u =>
        cases hexec : f c.arguments with
        | error e =>
          simp only [execCalls, htool, hval, hexec, List.length_nil, List.take_zero]
          exact List.Forall₂.nil
        | ok r =>
          simp only [execCalls, htool, hval, hexec, List.length_cons, List.take_succ_cons]
          refine List.Forall₂.cons ⟨?_, rfl⟩ ih
          simp only [callResponse, htool, hval, hexec]
    | none =>
      simp only [execCalls, htool, List.length_cons, List.take_succ_cons]
      refine List.Forall₂.cons ⟨?_, rfl⟩ ih
      simp only [callResponse, htool]

theorem execCalls_length_eq
    (tools : String → Option (List (String × PyVal) → Except String String))
    (calls : List ToolCall) :
    (execCalls tools calls).2 = Option.none →
      (execCalls tools calls).1.length = calls.length := by
  induction calls with
  | nil => intro; rfl
  | cons c rest ih =>
    cases htool : tools c.name with
    | some f =>
      cases hval : validate_tool_parameters c.name c.arguments with
      | error e =>
        simp only [execCalls, htool, hval]
        intro h
        exact Option.noConfusion h
      | ok u =>
        cases hexec : f c.arguments with
        | error e =>
          simp only [execCalls, htool, hval, hexec]
          intro h
          exact Option.noConfusion h
        | ok r =>
          simp only [execCalls, htool, hval, hexec, List.length_cons]
          intro h
          rw [ih h]
    | none =>
      simp only [execCalls, htool, List.length_cons]
      intro h
      rw [ih h]

theorem loopAux_step (backend : List ChatMessage → ChatMessage)
    (tools : String → Option (List (String × PyVal) → Except String String))
    (fuel : Nat) (messages : List ChatMessage)
    (hcalls : (backend messages).tool_calls ≠ [])
    (herr : (execCalls tools (backend messages).tool_calls).2 = Option.none) :
    loopAux backend tools (fuel+1) messages =
      loopAux backend tools fuel
        (messages ++ backend messages :: (execCalls tools (backend messages).tool_calls).1) := by
  simp only [loopAux]
  rw [if_neg (by simpa [List.isEmpty_iff] using hcalls), herr]

theorem loopAux_step_error (backend : List ChatMessage → ChatMessage)
    (tools : String → Option (List (String × PyVal) → Except String String))
    (fuel : Nat) (messages : List ChatMessage) (e : String)
    (hcalls : (backend messages).tool_calls ≠ [])
    (herr : (execCalls tools (backend messages).tool_calls).2 = Option.some e) :
    loopAux backend tools (fuel+1) messages = Except.error e := by
  simp only [loopAux]
  rw [if_neg (by simpa [List.isEmpty_iff] using hcalls), herr]

theorem loopAux_max (backend : List ChatMessage → ChatMessage)
    (tools : String → Option (List (String × PyVal) → Except String String))
    (hb : ∀ ms, (backend ms).tool_calls ≠ [])
    (he : ∀ ms, (execCalls tools (backend ms).tool_calls).2 = Option.none) :
    ∀ fuel messages, ∃ final,
      loopAux backend tools fuel messages =
        Except.ok ("Maximum iterations reached while processing request.", final) := by
  intro fuel
  induction fuel with
  | zero => intro messages; exact ⟨messages, rfl⟩
  | succ fuel ih =>
    intro messages
    rw [loopAux_step backend tools fuel messages (hb messages) (he messages)]
    exact ih _

theorem execCalls_append_error
    (tools : String → Option (List (String × PyVal) → Except String String))
    (c : ToolCall) (post : List ToolCall) (e : String)
    (f : List (String × PyVal) → Except String String)
    (hf : tools c.name = Option.some f)
    (hv : validate_tool_parameters c.name c.arguments = Except.error e) :
    ∀ pre : List ToolCall, (execCalls tools pre).2 = Option.none →
      execCalls tools (pre ++ c :: post) = ((execCalls tools pre).1, Option.some e) := by
  intro pre
  induction pre with
  | nil =>
    rintro -
    simp only [List.nil_append, execCalls, hf, hv]
  | cons a pre' ih =>
    intro hpre
    cases htool : tools a.name with
    | some g =>
      cases hval : validate_tool_parameters a.name a.arguments with
      | error e' =>
        simp only [execCalls, htool, hval] at hpre
        exact Option.noConfusion hpre
      | ok u =>
        cases hexec : g a.arguments with
        | error e' =>
          simp only [execCalls, htool, hval, hexec] at hpre
          exact Option.noConfusion hpre
        | ok r =>
          simp only [execCalls, htool, hval, hexec] at hpre ⊢
          simp only [List.append_eq]
          rw [ih hpre]
    | none =>
      simp only [execCalls, htool] at hpre ⊢
      simp only [List.append_eq]
      rw [ih hpre]

/-! ### Claims about the conversation loop -/

/-- C2: conversation-ordering invariant.  `execCalls` produces the
tool-role observations of one assistant turn: they answer the issued
calls pairwise in issue order (`Forall₂` against the processed prefix of
the call list), a turn that completes without aborting answers every
call, and the conversation handed to the next iteration is the previous
conversation with the assistant turn appended verbatim followed exactly
by those tool-role messages. -/
theorem conversation_ordering
    (tools : String → Option (List (String × PyVal) → Except String String))
    (calls : List ToolCall) (backend : List ChatMessage → ChatMessage)
    (fuel : Nat) (messages : List ChatMessage) :
    List.Forall₂ (fun c m => callResponse tools c = Option.some m ∧ m.role = Role.tool)
      (calls.take (execCalls tools calls).1.length) (execCalls tools calls).1 ∧
    ((execCalls tools calls).2 = Option.none →
      (execCalls tools calls).1.length = calls.length) ∧
    ((backend messages).tool_calls ≠ [] →
      (execCalls tools (backend messages).tool_calls).2 = Option.none →
      loopAux backend tools (fuel+1) messages =
        loopAux backend tools fuel
          (messages ++ backend messages :: (execCalls tools (backend messages).tool_calls).1)) :=
  ⟨execCalls_forall₂ tools calls, execCalls_length_eq tools calls,
    fun h1 h2 => loopAux_step backend tools fuel messages h1 h2⟩

/-- C2 witness: a two-call turn (one registered, one unknown) produces
exactly two observations, by `conversation_ordering`. -/
theorem conversation_ordering_witness :
    (execCalls (realTools (fun a _ => a))
      [⟨"check_prime", [("numbers", PyVal.list [PyVal.int 3])]⟩, ⟨"nope", []⟩]).1.length = 2 :=
  (conversation_ordering (realTools (fun a _ => a))
    [⟨"check_prime", [("numbers", PyVal.list [PyVal.int 3])]⟩, ⟨"nope", []⟩]
    (fun _ => ⟨Role.assistant, "", []⟩) 0 []).2.1 rfl

/-- A backend stub that always requests `roll_dice` with `sides = 0`
(a tool call whose arguments fail validation). -/
def alwaysZeroDice : List ChatMessage → ChatMessage :=
  fun _ => ⟨Role.assistant, "", [⟨"roll_dice", [("sides", PyVal.int 0)]⟩]⟩

/-- A backend stub that always requests a tool call with an unregistered
name. -/
def alwaysUnknownTool : List ChatMessage → ChatMessage :=
  fun _ => ⟨Role.assistant, "", [⟨"frobnicate", []⟩]⟩

/-- C1 counterexample: `alwaysZeroDice` issues a tool call in every
response, yet the loop raises the validation error instead of returning
the max-iterations string as a normal result. -/
theorem loop_max_iterations_cex :
    (∀ ms, (alwaysZeroDice ms).tool_calls ≠ []) ∧
    call_llm_with_tools alwaysZeroDice (realTools (fun a _ => a)) [] =
      Except.error "'sides' must be positive, got 0" :=
  ⟨fun _ h => List.noConfusion h, by rfl⟩

/-- C1 (amended): for every backend whose every response contains at
least one tool call and whose issued calls never abort the
tool-execution phase (each is unregistered or validates and executes
without error), the loop never reaches a final-answer transition: after
exactly 5 iterations it returns the fixed max-iterations string as a
normal result. -/
theorem loop_max_iterations (backend : List ChatMessage → ChatMessage)
    (tools : String → Option (List (String × PyVal) → Except String String))
    (messages : List ChatMessage)
    (hb : ∀ ms, (backend ms).tool_calls ≠ [])
    (he : ∀ ms, (execCalls tools (backend ms).tool_calls).2 = Option.none) :
    call_llm_with_tools backend tools messages =
      Except.ok "Maximum iterations reached while processing request." := by
  obtain ⟨final, hf⟩ := loopAux_max backend tools hb he 5 messages
  unfold call_llm_with_tools
  rw [hf]
  rfl

/-- C1 witness: `loop_max_iterations` at the unknown-tool backend stub. -/
theorem loop_max_iterations_witness :
    call_llm_with_tools alwaysUnknownTool (realTools (fun a _ => a)) [] =
      Except.ok "Maximum iterations reached while processing request." :=
  loop_max_iterations alwaysUnknownTool (realTools (fun a _ => a)) []
    (fun _ h => List.noConfusion h) (fun _ => rfl)

/-- C7: a validation failure during backend-driven dispatch aborts the
loop and propagates: if one turn's calls are `pre ++ c :: post` where
every call of `pre` completes, `c` names a registered tool and `c`'s
arguments fail validation with error `e`, then the tool-execution phase
appends no observation for `c` (nor for `post`; the result is
independent of `c`'s tool function) and the loop raises `e`. -/
theorem validation_failure_aborts
    (tools : String → Option (List (String × PyVal) → Except String String))
    (pre : List ToolCall) (c : ToolCall) (post : List ToolCall) (e : String)
    (f : List (String × PyVal) → Except String String)
    (hf : tools c.name = Option.some f)
    (hv : validate_tool_parameters c.name c.arguments = Except.error e)
    (hpre : (execCalls tools pre).2 = Option.none) :
    execCalls tools (pre ++ c :: post) = ((execCalls tools pre).1, Option.some e) ∧
    ∀ backend fuel messages,
      (backend messages).tool_calls = pre ++ c :: post →
      loopAux backend tools (fuel+1) messages = Except.error e := by
  have h1 := execCalls_append_error tools c post e f hf hv pre hpre
  refine ⟨h1, ?_⟩
  intro backend fuel messages hcalls
  have hne : (backend messages).tool_calls ≠ [] := by
    rw [hcalls]
    intro h
    have := congrArg List.length h
    simp at this
  apply loopAux_step_error backend tools fuel messages e hne
  rw [hcalls, h1]

/-- C7 witness: `validation_failure_aborts` with a completed unknown-tool
call before a `roll_dice` call whose `sides` is a string. -/
theorem validation_failure_aborts_witness :
    execCalls (realTools (fun a _ => a))
        ([⟨"mystery", []⟩] ++ ⟨"roll_dice", [("sides", PyVal.str "6")]⟩ :: []) =
      ((execCalls (realTools (fun a _ => a)) [⟨"mystery", []⟩]).1,
        Option.some "'sides' must be an integer, got str") ∧
    ∀ backend fuel messages,
      (backend messages).tool_calls =
        [⟨"mystery", []⟩] ++ ⟨"roll_dice", [("sides", PyVal.str "6")]⟩ :: [] →
      loopAux backend (realTools (fun a _ => a)) (fuel+1) messages =
        Except.error "'sides' must be an integer, got str" :=
  validation_failure_aborts (realTools (fun a _ => a)) [⟨"mystery", []⟩]
    ⟨"roll_dice", [("sides", PyVal.str "6")]⟩ []
    "'sides' must be an integer, got str" (roll_dice_tool (fun a _ => a)) rfl rfl rfl

/-- C8: a tool call naming an unregistered tool becomes a tool-role
observation carrying the explicit Unknown-tool text, and processing
continues with the remaining calls: no error is raised for it, the tool
registry is not consulted further for it, and its arguments are never
inspected (the result is the same for any arguments). -/
theorem unknown_tool_observation
    (tools : String → Option (List (String × PyVal) → Except String String))
    (name : String) (args args' : List (String × PyVal)) (rest : List ToolCall)
    (h : tools name = Option.none) :
    execCalls tools (⟨name, args⟩ :: rest) =
      (toolMessage ("Error: Unknown tool '" ++ name ++ "'") :: (execCalls tools rest).1,
        (execCalls tools rest).2) ∧
    (toolMessage ("Error: Unknown tool '" ++ name ++ "'")).role = Role.tool ∧
    execCalls tools (⟨name, args⟩ :: rest) = execCalls tools (⟨name, args'⟩ :: rest) := by
  refine ⟨?_, rfl, ?_⟩
  · simp only [execCalls, h]
  · simp only [execCalls, h]

/-- C8 witness: `unknown_tool_observation` at a concrete unknown name. -/
theorem unknown_tool_observation_witness :
    execCalls (realTools (fun a _ => a)) [⟨"frobnicate", [("sides", PyVal.int 3)]⟩] =
      (toolMessage ("Error: Unknown tool '" ++ "frobnicate" ++ "'") ::
        (execCalls (realTools (fun a _ => a)) []).1,
        (execCalls (realTools (fun a _ => a)) []).2) ∧
    (toolMessage ("Error: Unknown tool '" ++ "frobnicate" ++ "'")).role = Role.tool ∧
    execCalls (realTools (fun a _ => a)) [⟨"frobnicate", [("sides", PyVal.int 3)]⟩] =
      execCalls (realTools (fun a _ => a)) [⟨"frobnicate", []⟩] :=
  unknown_tool_observation (realTools (fun a _ => a)) "frobnicate"
    [("sides", PyVal.int 3)] [] [] rfl

/-! ### Claims about the fallback responder -/

/-- C9 counterexample: on "roll a 0-sided dice" the sided pattern
matches with 0 and the fallback responder raises `roll_dice`'s
`ValueError` instead of returning a response string: it is not total. -/
theorem fallback_processing_cex :
    fallback_processing (fun a _ => a) "roll a 0-sided dice" =
      Except.error "Dice must have at least 1 side" := by rfl

/-- C9 (amended): the fallback responder checks its three branches in
order — roll+dice (case-insensitive), then prime, then the fixed
capability sentence — with the stated response formats, except that a
matched sides number of 0 makes `roll_dice`'s error escape, so the
function is total only away from that case. -/
theorem fallback_processing_spec (randint : Int → Int → Int) (text : String) :
    ((strContains (lowerStr text) "roll" && strContains (lowerStr text) "dice") = true →
      (∀ n : Nat, findSided (lowerStr text).data = Option.some n → 1 ≤ n →
        fallback_processing randint text =
          Except.ok ("I rolled a " ++ toString n ++ "-sided dice and got: "
            ++ toString (randint 1 (n : Int)))) ∧
      (findSided (lowerStr text).data = Option.some 0 →
        fallback_processing randint text = Except.error "Dice must have at least 1 side") ∧
      (findSided (lowerStr text).data = Option.none →
        fallback_processing randint text =
          Except.ok ("I rolled a 6-sided dice and got: " ++ toString (randint 1 6)))) ∧
    ((strContains (lowerStr text) "roll" && strContains (lowerStr text) "dice") = false →
      strContains (lowerStr text) "prime" = true →
      (extractNumbers text.data ≠ [] →
        fallback_processing randint text =
          Except.ok (check_prime ((extractNumbers text.data).map (fun k => (k : Int))))) ∧
      (extractNumbers text.data = [] →
        fallback_processing randint text =
          Except.ok "Please provide numbers to check for primality.")) ∧
    ((strContains (lowerStr text) "roll" && strContains (lowerStr text) "dice") = false →
      strContains (lowerStr text) "prime" = false →
      fallback_processing randint text =
        Except.ok "I can roll dice and check if numbers are prime. What would you like me to do?") := by
  refine ⟨?_, ?_, ?_⟩
  · intro hdice
    refine ⟨?_, ?_, ?_⟩
    · intro n hfind hn
      simp only [fallback_processing]
      rw [if_pos hdice, hfind]
      dsimp only
      unfold roll_dice
      rw [if_neg (by omega)]
    · intro hfind
      simp only [fallback_processing]
      rw [if_pos hdice, hfind]
      rfl
    · intro hfind
      simp only [fallback_processing]
      rw [if_pos hdice, hfind]
      rfl
  · intro hdice hprime
    constructor
    · intro hnum
      simp only [fallback_processing]
      rw [if_neg (by simp [hdice]), if_pos hprime]
      cases hE : extractNumbers text.data with
      | nil => exact absurd hE hnum
      | cons a as => rw [if_neg (by simp)]
    · intro hnum
      simp only [fallback_processing]
      rw [if_neg (by simp [hdice]), if_pos hprime, hnum]
      rfl
  · intro hdice hprime
    simp only [fallback_processing]
    rw [if_neg (by simp [hdice]), if_neg (by simp [hprime])]

/-- C9 witness: the three branches of `fallback_processing_spec` at the
spec's example texts, with a concrete in-range oracle. -/
theorem fallback_processing_spec_witness :
    fallback_processing (fun a _ => a) "Roll a 20-sided dice" =
      Except.ok "I rolled a 20-sided dice and got: 1" ∧
    fallback_processing (fun a _ => a) "Is 17 prime?" =
      Except.ok "17 are prime numbers." ∧
    fallback_processing (fun a _ => a) "hello" =
      Except.ok "I can roll dice and check if numbers are prime. What would you like me to do?" := by
  refine ⟨?_, ?_, ?_⟩
  · exact ((fallback_processing_spec (fun a _ => a) "Roll a 20-sided dice").1
      (by rfl)).1 20 (by rfl) (by decide)
  · exact ((fallback_processing_spec (fun a _ => a) "Is 17 prime?").2.1
      (by rfl) (by rfl)).1 (by decide)
  · exact (fallback_processing_spec (fun a _ => a) "hello").2.2 (by rfl) (by rfl)
